import Mathlib

/-!
Shallow embedding of the `google-lighthouse-skill` repository's core logic:
the Lighthouse report analyzer (`src/lib/lighthouse-analyzer` style class
`LighthouseAnalyzer`) and the fix suggestion engine (`src/lib/fix-generator.js`
class `FixGenerator`).

Modelling conventions:
* JSON numbers are rationals (`ℚ`); a JS `null` numeric field is `Option ℚ`
  with `none` standing for `null`.
* JS objects used as string-keyed maps (`lhr.categories`, `lhr.audits`)
  become association lists `List (String × α)`; `Object.values`/
  `Object.entries` iterate in stored (insertion) order, which matches the
  JS string-key iteration order for the non-integer keys Lighthouse uses.
* JS relational operators on a possibly-`null` number coerce `null` to `0`
  (`ToNumber(null) = 0`); the helpers `nullLt` / `nullGe` capture this.
* `x || d` on numbers returns `d` when `x` is absent (`undefined`) or `0`
  (both falsy); `jsNum` captures this.  On strings the empty string is
  falsy (`jsOrStr`).  String concatenation renders an `undefined` operand
  as `"undefined"` (`jsUndef`).
* Fallible code (the analyzer's unguarded `audit.score` access on a
  dangling `auditRef`) returns `Except String`.
-/

/-- JS `x || d` for a possibly-null/undefined number: `null`/`undefined`
and `0` are falsy, so the default is returned for them. -/
def jsNum (x : Option ℚ) (d : ℚ) : ℚ :=
  match x with
  | none => d
  | some v => if v = 0 then d else v

/-- JS `x < c` where `x` is a number or `null`: `ToNumber(null) = 0`. -/
def nullLt (x : Option ℚ) (c : ℚ) : Bool :=
  decide ((x.getD 0) < c)

/-- JS `x >= c` where `x` is a number or `null`: `ToNumber(null) = 0`. -/
def nullGe (x : Option ℚ) (c : ℚ) : Bool :=
  decide (c ≤ (x.getD 0))

/-- JS `s || d` for a possibly-undefined string: `undefined` and `""` are
falsy. -/
def jsOrStr (x : Option String) (d : String) : String :=
  match x with
  | none => d
  | some s => if s = "" then d else s

/-- JS string concatenation renders an `undefined` operand as
`"undefined"`. -/
def jsUndef (x : Option String) : String :=
  x.getD "undefined"

/-- JS truthiness of a possibly-undefined string (used by
`if (fix.diagnosis)`): `undefined` and `""` are falsy. -/
def jsTruthyStr (x : Option String) : Bool :=
  match x with
  | none => false
  | some s => !(s == "")

/-- JS `Math.round`: round half toward positive infinity. -/
def jsRound (q : ℚ) : ℤ :=
  (q + 1/2).floor

/-- JS number-to-string conversion, exact on integers; non-integral
rationals are rendered as a fraction (IEEE-754 decimal formatting is
outside this embedding — every numeric field the program renders in the
bundled reports is integral). -/
def numStr (q : ℚ) : String :=
  if q.den = 1 then toString q.num else toString q.num ++ "/" ++ toString q.den

/-- JS `s.charAt(0).toUpperCase() + s.slice(1)`. -/
def capFirst (s : String) : String :=
  match s.data with
  | [] => ""
  | c :: cs => String.mk (c.toUpper :: cs)

/-- `needle` occurs at the start of `hay` (character lists). -/
def charsLead : List Char → List Char → Bool
  | [], _ => true
  | _ :: _, [] => false
  | a :: as, b :: bs => a == b && charsLead as bs

/-- `hay` contains `needle` somewhere (character lists). -/
def charsIncl (needle : List Char) : List Char → Bool
  | [] => needle.isEmpty
  | h :: t => charsLead needle (h :: t) || charsIncl needle t

/-- JS `hay.includes(needle)` for strings. -/
def strIncludes (hay needle : String) : Bool :=
  charsIncl needle.data hay.data

/-- JS `u?.includes(needle)` on a possibly-undefined string, as used in a
boolean position (`undefined` is falsy). -/
def jsStrIncludes (u : Option String) (needle : String) : Bool :=
  match u with
  | none => false
  | some s => strIncludes s needle

/-- First-match lookup in a string-keyed association list
(JS `obj[key]`, `undefined` when the key is absent). -/
def jsLookup {α : Type} (m : List (String × α)) (k : String) : Option α :=
  (m.find? (fun p => p.1 == k)).map (fun p => p.2)

/-! ## A stable sort with a JS-style comparator

JS `Array.prototype.sort` is required (ES2019+) to be stable; both call
sites in this repository sort by a numeric key.  We model it by a stable
insertion sort parameterized by a boolean `le`: an element is inserted in
front of the first element it is `le`-related to, so elements with equal
keys keep their original relative order. -/

/-- Insert `a` in front of the first element `x` of `l` with `le a x`. -/
def insertStable {α : Type} (le : α → α → Bool) (a : α) : List α → List α
  | [] => [a]
  | x :: xs => if le a x then a :: x :: xs else x :: insertStable le a xs

/-- Stable insertion sort with a boolean comparator. -/
def stableSort {α : Type} (le : α → α → Bool) : List α → List α
  | [] => []
  | x :: xs => insertStable le x (stableSort le xs)

theorem mem_insertStable {α : Type} (le : α → α → Bool) (a y : α) :
    ∀ l : List α, y ∈ insertStable le a l ↔ y = a ∨ y ∈ l := by
  intro l
  induction l with
  | nil => simp [insertStable]
  | cons x xs ih =>
    by_cases h : le a x = true
    · simp only [insertStable, if_pos h, List.mem_cons]
    · simp only [insertStable, if_neg h, List.mem_cons, ih]
      tauto

theorem mem_stableSort {α : Type} (le : α → α → Bool) (y : α) :
    ∀ l : List α, y ∈ stableSort le l ↔ y ∈ l := by
  intro l
  induction l with
  | nil => simp [stableSort]
  | cons x xs ih =>
    simp only [stableSort, mem_insertStable, ih, List.mem_cons]

theorem pairwise_insertStable {α : Type} (le : α → α → Bool)
    (htrans : ∀ x y z, le x y = true → le y z = true → le x z = true)
    (htot : ∀ x y, le x y = true ∨ le y x = true)
    (a : α) :
    ∀ l : List α, l.Pairwise (fun x y => le x y = true) →
      (insertStable le a l).Pairwise (fun x y => le x y = true) := by
  intro l
  induction l with
  | nil =>
    intro _
    simp [insertStable]
  | cons x xs ih =>
    intro hp
    rw [List.pairwise_cons] at hp
    obtain ⟨hx, hxs⟩ := hp
    by_cases h : le a x = true
    · rw [insertStable, if_pos h, List.pairwise_cons]
      constructor
      · intro y hy
        rcases List.mem_cons.mp hy with rfl | hy2
        · exact h
        · exact htrans a x y h (hx y hy2)
      · rw [List.pairwise_cons]
        exact ⟨hx, hxs⟩
    · rw [insertStable, if_neg h, List.pairwise_cons]
      constructor
      · intro y hy
        rcases (mem_insertStable le a y xs).mp hy with rfl | hy2
        · rcases htot x y with hh | hh
          · exact hh
          · exact absurd hh h
        · exact hx y hy2
      · exact ih hxs

theorem pairwise_stableSort {α : Type} (le : α → α → Bool)
    (htrans : ∀ x y z, le x y = true → le y z = true → le x z = true)
    (htot : ∀ x y, le x y = true ∨ le y x = true) :
    ∀ l : List α, (stableSort le l).Pairwise (fun x y => le x y = true) := by
  intro l
  induction l with
  | nil => simp [stableSort]
  | cons x xs ih =>
    exact pairwise_insertStable le htrans htot x _ ih

theorem filter_insertStable {α : Type} (le : α → α → Bool) (p : α → Bool)
    (hp : ∀ x y, p x = true → p y = true → le x y = true) (a : α) :
    ∀ l : List α, (insertStable le a l).filter p =
      if p a then a :: l.filter p else l.filter p := by
  intro l
  induction l with
  | nil =>
    cases hpa : p a <;> simp [insertStable, List.filter, hpa]
  | cons x xs ih =>
    by_cases h : le a x = true
    · rw [insertStable, if_pos h]
      by_cases hpa : p a = true
      · simp [List.filter, hpa]
      · simp only [Bool.not_eq_true] at hpa
        cases hpx : p x <;> simp [List.filter, hpa, hpx]
    · rw [insertStable, if_neg h]
      by_cases hpa : p a = true
      · have hpx : p x = false := by
          cases hpx : p x with
          | false => rfl
          | true => exact absurd (hp a x hpa hpx) h
        simp only [List.filter, hpx, ih, hpa, if_pos]
      · simp only [Bool.not_eq_true] at hpa
        cases hpx : p x <;> simp [List.filter, ih, hpa, hpx]

theorem filter_stableSort {α : Type} (le : α → α → Bool) (p : α → Bool)
    (hp : ∀ x y, p x = true → p y = true → le x y = true) :
    ∀ l : List α, (stableSort le l).filter p = l.filter p := by
  intro l
  induction l with
  | nil => simp [stableSort]
  | cons x xs ih =>
    rw [stableSort, filter_insertStable le p hp, ih]
    by_cases hpx : p x = true
    · simp [List.filter, hpx]
    · simp only [Bool.not_eq_true] at hpx
      simp [List.filter, hpx]

/-! ## Data model (spec §3, mirrored from the fields the source reads) -/

/-- A timing sub-record inside an insight table item
(`timingTable.items` entries with `subpart`/`duration`). -/
structure TimingItem where
  subpart : Option String
  duration : Option ℚ
deriving DecidableEq, Repr

/-- A DOM node reference (`item.node`). -/
structure NodeRef where
  nodeLabel : Option String
deriving DecidableEq, Repr

/-- A source location (`item.sourceLocation`). -/
structure SourceLocation where
  url : Option String
deriving DecidableEq, Repr

/-- One heterogeneous `details.items` record; every field the source
accesses is optional, mirroring JS dynamic field access. -/
structure Item where
  url : Option String
  wastedBytes : Option ℚ
  totalBytes : Option ℚ
  node : Option NodeRef
  source : Option String
  description : Option String
  sourceLocation : Option SourceLocation
  type : Option String
  items : Option (List TimingItem)
  nodeLabel : Option String
  selector : Option String
deriving DecidableEq, Repr

/-- An `Item` with every field absent, for concise test inputs. -/
def Item.empty : Item :=
  ⟨none, none, none, none, none, none, none, none, none, none, none⟩

/-- `audit.details`. -/
structure Details where
  type : Option String
  items : Option (List Item)
  overallSavingsMs : Option ℚ
  overallSavingsBytes : Option ℚ
deriving DecidableEq, Repr

/-- One audit record of the report. -/
structure Audit where
  id : String
  title : String
  description : String
  score : Option ℚ
  scoreDisplayMode : Option String
  numericValue : Option ℚ
  numericUnit : Option String
  displayValue : Option String
  rating : Option String
  details : Option Details
deriving DecidableEq, Repr

/-- An `Audit` with empty strings and every optional field absent. -/
def Audit.empty : Audit :=
  ⟨"", "", "", none, none, none, none, none, none, none⟩

/-- One `auditRefs` entry of a category. -/
structure AuditRef where
  id : String
deriving DecidableEq, Repr

/-- One category of the report. -/
structure Category where
  title : String
  score : Option ℚ
  auditRefs : List AuditRef
deriving DecidableEq, Repr

/-- The parsed Lighthouse report (`this.lhr`). -/
structure LHR where
  requestedUrl : String
  finalUrl : String
  fetchTime : String
  lighthouseVersion : String
  categories : List (String × Category)
  audits : List (String × Audit)
deriving DecidableEq, Repr

/-- A report with no categories and no audits. -/
def LHR.empty : LHR :=
  ⟨"", "", "", "", [], []⟩

/-! ## LighthouseAnalyzer (src/unnamed/part_001) -/

namespace LighthouseAnalyzer

/-- One entry of `getCategoryScores()`. -/
structure CategoryScore where
  title : String
  score : Option ℤ
deriving DecidableEq, Repr

/-- `getCategoryScores()`: `Math.round(category.score * 100)` or `null`. -/
def getCategoryScores (lhr : LHR) : List (String × CategoryScore) :=
  lhr.categories.map (fun p =>
    (p.1, { title := p.2.title, score := p.2.score.map (fun s => jsRound (s * 100)) }))

/-- The value returned by `getSummary()`. -/
structure Summary where
  url : String
  finalUrl : String
  timestamp : String
  version : String
  scores : List (String × CategoryScore)
deriving DecidableEq, Repr

/-- `getSummary()`. -/
def getSummary (lhr : LHR) : Summary :=
  { url := lhr.requestedUrl
    finalUrl := lhr.finalUrl
    timestamp := lhr.fetchTime
    version := lhr.lighthouseVersion
    scores := getCategoryScores lhr }

/-- The `auditRefs` collection step of `getFailedAudits`: the named
category's refs (or `[]` when the category is absent), else the
concatenation over all categories in stored order. -/
def collectAuditRefs (lhr : LHR) (categoryId : Option String) : List AuditRef :=
  match categoryId with
  | some cid =>
    match jsLookup lhr.categories cid with
    | some c => c.auditRefs
    | none => []
  | none => (lhr.categories.map (fun p => p.2.auditRefs)).flatten

/-- The de-duplication step of `getFailedAudits` (`seenIds` set, first
occurrence wins). -/
def dedupRefs (seen : List String) : List AuditRef → List AuditRef
  | [] => []
  | r :: rs =>
    if r.id ∈ seen then dedupRefs seen rs
    else r :: dedupRefs (r.id :: seen) rs

/-- The retention test of `getFailedAudits`:
`score !== null && score < minScore && mode !== manual && mode !== notApplicable`. -/
def failedFilter (minScore : ℚ) (a : Audit) : Bool :=
  match a.score with
  | none => false
  | some s =>
    decide (s < minScore) &&
    !(a.scoreDisplayMode == some "manual") &&
    !(a.scoreDisplayMode == some "notApplicable")

/-- The `.filter` pass of `getFailedAudits` over the mapped
`audits[ref.id]` array.  A dangling reference puts `undefined` in the
array and the unguarded `audit.score` access inside the filter callback
throws a `TypeError`, modelled as `Except.error`. -/
def filterFailed (minScore : ℚ) : List (Option Audit) → Except String (List Audit)
  | [] => .ok []
  | none :: _ => .error "TypeError: Cannot read properties of undefined (reading score)"
  | some a :: rest =>
    match filterFailed minScore rest with
    | .error e => .error e
    | .ok tl => .ok (if failedFilter minScore a then a :: tl else tl)

/-- `getFailedAudits(categoryId)`: collect refs, de-duplicate, map to
audits, filter by the failing-score test. -/
def getFailedAudits (lhr : LHR) (categoryId : Option String) (minScore : ℚ) :
    Except String (List Audit) :=
  filterFailed minScore
    ((dedupRefs [] (collectAuditRefs lhr categoryId)).map
      (fun ref => jsLookup lhr.audits ref.id))

/-- One entry of `getOpportunities()`. -/
structure Opportunity where
  id : String
  title : String
  description : String
  score : Option ℚ
  wastedMs : ℚ
  wastedBytes : ℚ
  items : Nat
deriving DecidableEq, Repr

/-- The per-audit retention-and-projection step of `getOpportunities`:
`audit.details && audit.details.type === 'opportunity' && audit.score < 1`
(a `null` score coerces to `0` and passes `< 1`). -/
def oppOf (a : Audit) : Option Opportunity :=
  a.details.bind (fun d =>
    if d.type == some "opportunity" && nullLt a.score 1 then
      some { id := a.id
             title := a.title
             description := a.description
             score := a.score
             wastedMs := jsNum d.overallSavingsMs 0
             wastedBytes := jsNum d.overallSavingsBytes 0
             items := (d.items.getD []).length }
    else none)

/-- The unsorted opportunity list, in audit-map iteration order. -/
def oppBase (lhr : LHR) : List Opportunity :=
  (lhr.audits.map (fun p => p.2)).filterMap oppOf

/-- The comparator of `opportunities.sort((a, b) => b.wastedMs - a.wastedMs)`
as a stable-sort `le`. -/
def oppLe (a b : Opportunity) : Bool :=
  decide (b.wastedMs ≤ a.wastedMs)

/-- `getOpportunities()`: scan all audits, retain opportunities with a
failing score, sort descending by `wastedMs` (stable). -/
def getOpportunities (lhr : LHR) : List Opportunity :=
  stableSort oppLe (oppBase lhr)

/-- The fixed allow-list of `getDiagnostics()`, in source order. -/
def diagnosticIds : List String :=
  ["bootup-time", "mainthread-work-breakdown", "long-tasks",
   "dom-size", "network-requests", "total-byte-weight"]

/-- One entry of `getDiagnostics()`. -/
structure Diagnostic where
  id : String
  title : String
  description : String
  score : Option ℚ
  displayValue : Option String
deriving DecidableEq, Repr

/-- The projection `getDiagnostics` applies to a retained audit. -/
def diagProj (a : Audit) : Diagnostic :=
  { id := a.id
    title := a.title
    description := a.description
    score := a.score
    displayValue := a.displayValue }

/-- The per-id step of `getDiagnostics`: `if (audit && audit.score < 1)`
(a `null` score coerces to `0` and passes `< 1`). -/
def diagStep (lhr : LHR) (id : String) : Option Diagnostic :=
  (jsLookup lhr.audits id).bind (fun a =>
    if nullLt a.score 1 then some (diagProj a) else none)

/-- `getDiagnostics()`: the fixed id list, in order, filtered and
projected. -/
def getDiagnostics (lhr : LHR) : List Diagnostic :=
  diagnosticIds.filterMap (diagStep lhr)

/-- One entry of `getCoreWebVitals()`. -/
structure Vital where
  name : String
  value : Option ℚ
  unit : Option String
  displayValue : Option String
  rating : Option String
  passed : Bool
deriving DecidableEq, Repr

/-- The fixed key → audit-id map of `getCoreWebVitals()`, in source
order. -/
def vitalIds : List (String × String) :=
  [("lcp", "largest-contentful-paint"), ("fid", "max-potential-fid"),
   ("cls", "cumulative-layout-shift"), ("fcp", "first-contentful-paint"),
   ("tbt", "total-blocking-time"), ("si", "speed-index")]

/-- `getCoreWebVitals()`: present audits only, projected. -/
def getCoreWebVitals (lhr : LHR) : List (String × Vital) :=
  vitalIds.filterMap (fun p =>
    (jsLookup lhr.audits p.2).map (fun a =>
      (p.1, { name := a.title
              value := a.numericValue
              unit := a.numericUnit
              displayValue := a.displayValue
              rating := a.rating
              passed := a.rating == some "pass" })))

end LighthouseAnalyzer

/-! ## Analyzer lemmas -/

theorem filterFailed_ok_mem (m : ℚ) :
    ∀ (ol : List (Option Audit)) (l : List Audit) (a : Audit),
      LighthouseAnalyzer.filterFailed m ol = .ok l → a ∈ l →
      LighthouseAnalyzer.failedFilter m a = true := by
  intro ol
  induction ol with
  | nil =>
    intro l a h ha
    simp only [LighthouseAnalyzer.filterFailed, Except.ok.injEq] at h
    subst h
    cases ha
  | cons o rest ih =>
    intro l a h ha
    cases o with
    | none => simp [LighthouseAnalyzer.filterFailed] at h
    | some x =>
      rw [LighthouseAnalyzer.filterFailed] at h
      cases heq : LighthouseAnalyzer.filterFailed m rest with
      | error e => rw [heq] at h; cases h
      | ok tl =>
        rw [heq] at h
        simp only [Except.ok.injEq] at h
        subst h
        by_cases hx : LighthouseAnalyzer.failedFilter m x = true
        · rw [if_pos hx] at ha
          rcases List.mem_cons.mp ha with rfl | ha2
          · exact hx
          · exact ih tl a heq ha2
        · rw [if_neg hx] at ha
          exact ih tl a heq ha

theorem failedFilter_true (m : ℚ) (a : Audit)
    (h : LighthouseAnalyzer.failedFilter m a = true) :
    (∃ s, a.score = some s ∧ s < m) ∧
      a.scoreDisplayMode ≠ some "manual" ∧
      a.scoreDisplayMode ≠ some "notApplicable" := by
  cases hsc : a.score with
  | none => rw [LighthouseAnalyzer.failedFilter, hsc] at h; cases h
  | some s =>
    rw [LighthouseAnalyzer.failedFilter, hsc] at h
    simp only [Bool.and_eq_true, decide_eq_true_eq, Bool.not_eq_true',
      beq_eq_false_iff_ne, ne_eq] at h
    exact ⟨⟨s, rfl, h.1.1⟩, h.1.2, h.2⟩

/-- Claim C1: every audit returned by `getFailedAudits` has a non-null
score strictly below `minScore`, and a `scoreDisplayMode` that is neither
`manual` nor `notApplicable`, for every report, category filter and
`minScore`. -/
theorem claim_C1_failed_audits_filter
    (lhr : LHR) (categoryId : Option String) (minScore : ℚ)
    (l : List Audit) (a : Audit)
    (hok : LighthouseAnalyzer.getFailedAudits lhr categoryId minScore = .ok l)
    (ha : a ∈ l) :
    (∃ s, a.score = some s ∧ s < minScore) ∧
      a.scoreDisplayMode ≠ some "manual" ∧
      a.scoreDisplayMode ≠ some "notApplicable" :=
  failedFilter_true minScore a
    (filterFailed_ok_mem minScore _ l a hok ha)

/-- A failing numeric audit for the C1 witness report. -/
def w1audit : Audit :=
  { Audit.empty with
    id := "a1"
    score := some 0
    scoreDisplayMode := some "numeric" }

/-- A passing audit for the C1 witness report. -/
def w1pass : Audit :=
  { Audit.empty with
    id := "a2"
    score := some 1
    scoreDisplayMode := some "numeric" }

/-- The C1 witness report: one category referencing a failing and a
passing audit. -/
def w1lhr : LHR :=
  { LHR.empty with
    categories :=
      [("performance",
        { title := "Performance", score := some 1,
          auditRefs := [⟨"a1"⟩, ⟨"a2"⟩] })]
    audits := [("a1", w1audit), ("a2", w1pass)] }

theorem claim_C1_witness :
    (∃ s, w1audit.score = some s ∧ s < (1 : ℚ)) ∧
      w1audit.scoreDisplayMode ≠ some "manual" ∧
      w1audit.scoreDisplayMode ≠ some "notApplicable" :=
  claim_C1_failed_audits_filter w1lhr none 1 [w1audit] w1audit
    (by rfl) (by simp)

/-- The C3 failing input: the performance category references audit id
`ghost-audit`, which has no entry in `audits`. -/
def c3report : LHR :=
  { LHR.empty with
    categories :=
      [("performance",
        { title := "Performance", score := some 1,
          auditRefs := [⟨"ghost-audit"⟩] })]
    audits := [] }

/-- Claim C3 (code bug): on a report with a dangling `auditRef`,
`getFailedAudits` does not skip the reference — the unguarded
`audit.score` access in the filter callback raises a `TypeError`, so the
call does not return normally. -/
theorem claim_C3_dangling_ref_raises :
    LighthouseAnalyzer.getFailedAudits c3report none (1/2) =
      Except.error "TypeError: Cannot read properties of undefined (reading score)" := by
  rfl

theorem oppOf_some (a : Audit) (o : LighthouseAnalyzer.Opportunity)
    (h : LighthouseAnalyzer.oppOf a = some o) :
    ∃ d, a.details = some d ∧ (d.type == some "opportunity") = true ∧
      nullLt a.score 1 = true ∧
      o.wastedMs = jsNum d.overallSavingsMs 0 ∧
      o.wastedBytes = jsNum d.overallSavingsBytes 0 ∧
      o.id = a.id := by
  rw [LighthouseAnalyzer.oppOf, Option.bind_eq_some] at h
  obtain ⟨d, hd, hf⟩ := h
  by_cases hc : (d.type == some "opportunity" && nullLt a.score 1) = true
  · rw [if_pos hc] at hf
    simp only [Bool.and_eq_true] at hc
    simp only [Option.some.injEq] at hf
    subst hf
    exact ⟨d, hd, hc.1, hc.2, rfl, rfl, rfl⟩
  · rw [if_neg hc] at hf
    cases hf

/-- Claim C4: `getOpportunities` output is sorted descending by
`wastedMs`; the sort is stable (entries with any fixed `wastedMs` value
appear exactly in their original audit-map iteration order, i.e.
filtering the output by a `wastedMs` value gives the same list as
filtering the unsorted projection); and every returned entry comes from
an audit with `details.type === 'opportunity'` and a (null-coerced) score
below 1, with `wastedMs` equal to `overallSavingsMs` defaulted to 0. -/
theorem claim_C4_opportunities_sorted_stable (lhr : LHR) :
    (LighthouseAnalyzer.getOpportunities lhr).Pairwise
        (fun a b => b.wastedMs ≤ a.wastedMs) ∧
      (∀ v : ℚ,
        (LighthouseAnalyzer.getOpportunities lhr).filter
            (fun o => decide (o.wastedMs = v)) =
          (LighthouseAnalyzer.oppBase lhr).filter
            (fun o => decide (o.wastedMs = v))) ∧
      (∀ o ∈ LighthouseAnalyzer.getOpportunities lhr,
        ∃ a ∈ lhr.audits.map (fun p => p.2), ∃ d,
          a.details = some d ∧ (d.type == some "opportunity") = true ∧
          nullLt a.score 1 = true ∧
          o.wastedMs = jsNum d.overallSavingsMs 0 ∧ o.id = a.id) := by
  refine ⟨?_, ?_, ?_⟩
  · have hp := pairwise_stableSort LighthouseAnalyzer.oppLe
      (fun x y z hxy hyz => by
        simp only [LighthouseAnalyzer.oppLe, decide_eq_true_eq] at *
        exact le_trans hyz hxy)
      (fun x y => by
        simp only [LighthouseAnalyzer.oppLe, decide_eq_true_eq]
        exact le_total y.wastedMs x.wastedMs)
      (LighthouseAnalyzer.oppBase lhr)
    exact hp.imp (fun h => by
      simpa only [LighthouseAnalyzer.oppLe, decide_eq_true_eq] using h)
  · intro v
    exact filter_stableSort LighthouseAnalyzer.oppLe _
      (fun x y hx hy => by
        simp only [decide_eq_true_eq] at hx hy
        simp only [LighthouseAnalyzer.oppLe, hx, hy, decide_eq_true_eq]
        exact le_refl v)
      (LighthouseAnalyzer.oppBase lhr)
  · intro o ho
    rw [LighthouseAnalyzer.getOpportunities,
      mem_stableSort, LighthouseAnalyzer.oppBase, List.mem_filterMap] at ho
    obtain ⟨a, ha, hao⟩ := ho
    obtain ⟨d, hd, ht, hs, hw, _, hid⟩ := oppOf_some a o hao
    exact ⟨a, ha, d, hd, ht, hs, hw, hid⟩

/-- An opportunity audit with 100ms savings (first of a tie pair). -/
def w4audit1 : Audit :=
  { Audit.empty with
    id := "o1"
    score := some 0
    details := some { type := some "opportunity", items := none,
                      overallSavingsMs := some 100, overallSavingsBytes := none } }

/-- The C4 witness report. -/
def w4lhr : LHR :=
  { LHR.empty with
    audits :=
      [("o1", w4audit1),
       ("o2", { Audit.empty with
                id := "o2"
                score := some 0
                details := some { type := some "opportunity", items := none,
                                  overallSavingsMs := some 100,
                                  overallSavingsBytes := none } }),
       ("o3", { Audit.empty with
                id := "o3"
                score := some 0
                details := some { type := some "opportunity", items := none,
                                  overallSavingsMs := some 500,
                                  overallSavingsBytes := none } })] }

/-- The projection of `w4audit1` as produced by `getOpportunities`. -/
def w4opp1 : LighthouseAnalyzer.Opportunity :=
  { id := "o1", title := "", description := "", score := some 0,
    wastedMs := 100, wastedBytes := 0, items := 0 }

theorem claim_C4_witness :
    ∃ a ∈ w4lhr.audits.map (fun p => p.2), ∃ d,
      a.details = some d ∧ (d.type == some "opportunity") = true ∧
      nullLt a.score 1 = true ∧
      w4opp1.wastedMs = jsNum d.overallSavingsMs 0 ∧ w4opp1.id = a.id :=
  (claim_C4_opportunities_sorted_stable w4lhr).2.2 w4opp1 (by decide)

/-! ## FixGenerator (src/src/lib/fix-generator.js) -/

namespace FixGenerator

/-- One templated code snippet of a fix
(`{ type, title, code }` in the source). -/
structure Snippet where
  type : String
  title : String
  code : String
deriving DecidableEq, Repr

/-- One fix record pushed by `addFix`; `diagnosis` is optional because
several rules omit the field (JS `undefined`). -/
structure Fix where
  title : String
  priority : String
  impact : String
  description : String
  diagnosis : Option String
  fixes : List Snippet
deriving DecidableEq, Repr

/-- The generator's mutable state: the loaded report (`this.lhr`) and
the accumulated fix list (`this.fixes`). -/
structure GenState where
  lhr : LHR
  fixes : List Fix
deriving DecidableEq, Repr

/-- `this.addFix(fix)`: append to the internal list. -/
def addFix (st : GenState) (f : Fix) : GenState :=
  { st with fixes := st.fixes ++ [f] }

/-- `this.lhr.categories.<cid>?.auditRefs || []`. -/
def categoryRefs (lhr : LHR) (cid : String) : List AuditRef :=
  match jsLookup lhr.categories cid with
  | some c => c.auditRefs
  | none => []

/-- `diagnoseTTFB(ttfbMs)`. -/
def diagnoseTTFB (ttfbMs : ℚ) : String :=
  if ttfbMs > 1000 then "TTFB is critically high (> 1s)"
  else if ttfbMs > 600 then "TTFB is elevated (> 600ms)"
  else if ttfbMs > 400 then "TTFB is moderate (> 400ms)"
  else "TTFB is acceptable"

/-- `diagnoseFID(fidMs)`. -/
def diagnoseFID (fidMs : ℚ) : String :=
  if fidMs > 200 then "FID is critically high (> 200ms)"
  else if fidMs > 100 then "FID needs improvement (> 100ms)"
  else if fidMs > 50 then "FID is acceptable but could be better"
  else "FID is good"

/-- `getServerResponseTimeFixes(ttfbMs)`. -/
def getServerResponseTimeFixes (ttfbMs : ℚ) : List Snippet :=
  (if ttfbMs > 600 then
    [{ type := "text", title := "TTFB Root Cause Analysis",
       code := "1. Check server location & CDN\n2. Enable CDN caching\n3. Optimize database queries\n4. Use edge computing" }]
  else []) ++
  [{ type := "bash", title := "Add Cache Headers",
     code := "# Apache .htaccess\n<IfModule mod_expires.c>\n  ExpiresActive On\n  ExpiresByType text/html \"access plus 1 hour\"\n</IfModule>" }]

/-- The fix record built by `addServerResponseTimeFixes(audit)`. -/
def srtFix (audit : Audit) : Fix :=
  let ttfbMs := jsNum audit.numericValue 0
  { title := "Reduce Server Response Time (TTFB: " ++ toString (jsRound ttfbMs) ++ "ms)"
    priority := "high"
    impact := "All Core Web Vitals - TTFB affects LCP, FCP, and SI"
    description := audit.description
    diagnosis := some (diagnoseTTFB ttfbMs)
    fixes := getServerResponseTimeFixes ttfbMs }

/-- `addServerResponseTimeFixes(audit)`. -/
def addServerResponseTimeFixes (st : GenState) (audit : Audit) : GenState :=
  addFix st (srtFix audit)

/-- `item.url?.includes('chrome-extension://')` in a boolean position. -/
def isExt (item : Item) : Bool :=
  jsStrIncludes item.url "chrome-extension://"

/-- `audit.details?.items || []`. -/
def jsItems (audit : Audit) : List Item :=
  (audit.details.bind (fun d => d.items)).getD []

/-- `items.reduce((sum, item) => sum + (item.wastedBytes || 0), 0)`. -/
def sumWastedBytes (items : List Item) : ℚ :=
  items.foldl (fun sum item => sum + jsNum item.wastedBytes 0) 0

/-- `e.url?.split('/').pop()` as rendered inside `Array.join` (an
extension item always has a URL; a missing one would render empty). -/
def extName (item : Item) : String :=
  match item.url with
  | some u => (u.splitOn "/").getLastD ""
  | none => ""

/-- `getUnusedJsAnalysis(items, totalBytes, totalMs)`. -/
def getUnusedJsAnalysis (items : List Item) (totalBytes totalMs : ℚ) : String :=
  let topWasters :=
    (stableSort (fun a b => decide (jsNum b.wastedBytes 0 ≤ jsNum a.wastedBytes 0))
      (items.filter (fun item => !(isExt item)))).take 5
  "## Unused JavaScript Details\n\n" ++
  "**Total Impact**: " ++ toString (jsRound (totalBytes / 1024)) ++ "KB wasted, " ++
    numStr totalMs ++ "ms savings\n\n" ++
  "### Top Wasting Files:\n\n" ++
  String.join (topWasters.enum.map (fun p =>
    let url := jsOrStr p.2.url "unknown"
    let filename := (url.splitOn "/").getLastD ""
    let wastedKb := jsRound (jsNum p.2.wastedBytes 0 / 1024)
    let totalKb := jsRound (jsNum p.2.totalBytes 0 / 1024)
    toString (p.1 + 1) ++ ". **" ++ filename ++ "**\n" ++
      "   - Wasted: " ++ toString wastedKb ++ "KB / " ++ toString totalKb ++ "KB\n\n"))

/-- The static code-splitting snippet of the unused-JavaScript rule. -/
def dynamicImportSnippet : Snippet :=
  { type := "javascript", title := "Dynamic Imports for Code Splitting",
    code := "// pages/index.js or app/page.js\nimport dynamic from \x27next/dynamic\x27;\n\n// Lazy load heavy components\nconst HeavyChart = dynamic(() => import(\x27../components/HeavyChart\x27), \x7b\n  loading: () => <div>Loading chart...</div>,\n  ssr: false\n\x7d);" }

/-- The fix record built by `addUnusedJavaScriptFixes(audit)`. -/
def unusedJsFix (audit : Audit) : Fix :=
  let items := jsItems audit
  let totalWastedMs := jsNum (audit.details.bind (fun d => d.overallSavingsMs)) 0
  let totalWastedBytes := sumWastedBytes items
  let firstParty := items.filter (fun item => !(isExt item))
  let extensions := items.filter isExt
  let fixes :=
    (if firstParty.length > 0 then
      [{ type := "markdown", title := "Unused JavaScript Analysis",
         code := getUnusedJsAnalysis firstParty totalWastedBytes totalWastedMs },
       dynamicImportSnippet]
     else []) ++
    (if extensions.length > 0 then
      [{ type := "text", title := "Browser Extensions Detected (Can Ignore)",
         code := "Browser extensions like " ++
           String.intercalate ", " (extensions.map extName) ++
           " only affect local development. Test in incognito mode for accurate production metrics." }]
     else [])
  { title := "Reduce Unused JavaScript (~" ++ toString (jsRound (totalWastedBytes / 1024)) ++
      "KB wasted, " ++ numStr totalWastedMs ++ "ms savings)"
    priority := "high"
    impact := "FCP, LCP, and TBT"
    description := audit.description
    diagnosis := some (toString firstParty.length ++ " first-party files with unused code")
    fixes := fixes }

/-- `addUnusedJavaScriptFixes(audit)`. -/
def addUnusedJavaScriptFixes (st : GenState) (audit : Audit) : GenState :=
  addFix st (unusedJsFix audit)

/-- The static contrast snippet of the color-contrast rule. -/
def cssContrastSnippet : Snippet :=
  { type := "css", title := "Fix contrast with darker text",
    code := "/* Current issue: text-white/40 = 40% opacity = insufficient contrast */\n\n/* GOOD - Fix Option 1: Increase opacity */\n.text-white\\/60 \x7b\n  color: rgba(255, 255, 255, 0.6); /* 7:1 ratio - PASS */\n\x7d\n\n/* GOOD - Fix Option 2: Use lighter gray */\n.text-gray-300 \x7b\n  color: rgb(209, 213, 219); /* 12.6:1 ratio - PASS */\n\x7d" }

/-- The fix record built by `addColorContrastFixes(audit)`. -/
def colorContrastFix (audit : Audit) : Fix :=
  let items := jsItems audit
  { title := "Fix Color Contrast (" ++ toString items.length ++ " elements affected)"
    priority := "high"
    impact := "Accessibility (WCAG AA compliance)"
    description := audit.description
    diagnosis := some ("Elements like \"" ++
      jsUndef ((items.head?.bind (fun i => i.node)).bind (fun n => n.nodeLabel)) ++
      "\" have insufficient contrast (3.65:1, need 4.5:1)")
    fixes := [cssContrastSnippet] }

/-- `addColorContrastFixes(audit)`. -/
def addColorContrastFixes (st : GenState) (audit : Audit) : GenState :=
  addFix st (colorContrastFix audit)

/-- The fix record built by `addHeadingOrderFixes(audit)`. -/
def headingOrderFix (audit : Audit) : Fix :=
  let items := jsItems audit
  let label := (items.head?.bind (fun i => i.node)).bind (fun n => n.nodeLabel)
  { title := "Fix Heading Order Hierarchy"
    priority := "medium"
    impact := "Accessibility and SEO"
    description := audit.description
    diagnosis := some ("Found heading with invalid order: " ++ jsUndef label)
    fixes := [{ type := "html", title := "Add missing h2 heading",
                code := "<!-- PROBLEM -->\n<h1>Main Title</h1>\n<h3>" ++ jsOrStr label "Subheading" ++
                  "</h3>\n\n<!-- SOLUTION -->\n<h1>Main Title</h1>\n<h2>Section Title</h2>\n<h3>" ++
                  jsOrStr label "Subheading" ++ "</h3>" }] }

/-- `addHeadingOrderFixes(audit)`. -/
def addHeadingOrderFixes (st : GenState) (audit : Audit) : GenState :=
  addFix st (headingOrderFix audit)

/-- One line of the console-error analysis block
(`'- ' + e.description + (e.url ? '\n  URL: ' + e.url.substring(0, 80) : '')`). -/
def consoleErrorLine (item : Item) : String :=
  "- " ++ jsUndef item.description ++
    (match item.sourceLocation.bind (fun s => s.url) with
     | some u => if u = "" then "" else "\n  URL: " ++ u.take 80
     | none => "")

/-- The fix record built by `addConsoleErrorsFixes(audit)`. -/
def consoleErrorsFix (audit : Audit) : Fix :=
  let items := jsItems audit
  { title := "Fix Console Errors (" ++ toString items.length ++ " errors)"
    priority := "medium"
    impact := "User experience"
    description := audit.description
    diagnosis := some (jsOrStr (items.head?.bind (fun i => i.description)) "Console errors detected")
    fixes := [{ type := "text", title := "Error Analysis",
                code := String.intercalate "\n" (items.map consoleErrorLine) }] }

/-- `addConsoleErrorsFixes(audit)`. -/
def addConsoleErrorsFixes (st : GenState) (audit : Audit) : GenState :=
  addFix st (consoleErrorsFix audit)

/-- The fix record built by `addSourceMapsFixes(audit)`. -/
def sourceMapsFix (audit : Audit) : Fix :=
  let items := jsItems audit
  { title := "Fix Missing Source Maps (" ++ toString items.length ++ " files)"
    priority := "low"
    impact := "Debugging (not production)"
    description := audit.description
    diagnosis := some (toString items.length ++ " JavaScript files missing source maps")
    fixes := [{ type := "bash", title := "Enable source maps in Next.js",
                code := "# next.config.js\nmodule.exports = \x7b\n  productionBrowserSourceMaps: true\n\x7d;\n\nnpm run build" }] }

/-- `addSourceMapsFixes(audit)`. -/
def addSourceMapsFixes (st : GenState) (audit : Audit) : GenState :=
  addFix st (sourceMapsFix audit)

/-- The fix record built by `addLCPBreakdownFixes(audit)`. -/
def lcpBreakdownFix (audit : Audit) : Fix :=
  let items := jsItems audit
  let timingTable := items.find? (fun item => item.type == some "table")
  let lcpElement := items.find? (fun item => item.type == some "node")
  let diagnosis :=
    match timingTable with
    | some t =>
      match t.items with
      | some tis =>
        "LCP breakdown: TTFB " ++
          (match tis.find? (fun i => i.subpart == some "timeToFirstByte") with
           | some ttfb =>
             (match ttfb.duration with
              | some d => toString (jsRound d)
              | none => "NaN") ++ "ms"
           | none => "N/A")
      | none => ""
    | none => ""
  let fixes :=
    match lcpElement with
    | some el =>
      [{ type := "text", title := "Optimize LCP Element",
         code := "LCP Element: " ++ jsOrStr el.nodeLabel "Unknown" ++ "\nSelector: " ++
           jsOrStr el.selector "unknown" ++
           "\n\n1. Preload the LCP resource\n2. Reduce CSS on this element\n3. Ensure element is in initial HTML" }]
    | none => []
  { title := "Optimize LCP Breakdown"
    priority := "high"
    impact := "LCP metric"
    description := audit.description
    diagnosis := some diagnosis
    fixes := fixes }

/-- `addLCPBreakdownFixes(audit)`. -/
def addLCPBreakdownFixes (st : GenState) (audit : Audit) : GenState :=
  addFix st (lcpBreakdownFix audit)

/-- The fix record built by `addDocumentLatencyFixes(audit)`. -/
def documentLatencyFix (audit : Audit) : Fix :=
  let wastedMs := jsNum (audit.details.bind (fun d => d.overallSavingsMs)) 570
  { title := "Reduce Document Request Latency (~" ++ numStr wastedMs ++ "ms savings)"
    priority := "high"
    impact := "All page metrics"
    description := audit.description
    diagnosis := some "Initial HTML request is taking too long"
    fixes := [{ type := "text", title := "Document Latency Solutions",
                code := "1. Use CDN (Vercel, Netlify, Cloudflare)\n2. Enable gzip/brotli compression\n3. Add cache headers\n4. Use HTTP/2\n5. Preconnect to origins" }] }

/-- `addDocumentLatencyFixes(audit)`. -/
def addDocumentLatencyFixes (st : GenState) (audit : Audit) : GenState :=
  addFix st (documentLatencyFix audit)

/-- The fix record built by `addFIDFixes(audit)`. -/
def fidFix (audit : Audit) : Fix :=
  let value := jsNum audit.numericValue 0
  { title := "Reduce First Input Delay (FID: " ++ toString (jsRound value) ++ "ms)"
    priority := if value > 100 then "high" else "medium"
    impact := "Interactivity"
    description := audit.description
    diagnosis := some (diagnoseFID value)
    fixes := [{ type := "text", title := "Break up long JavaScript tasks",
                code := "- Use requestIdleCallback or setTimeout for chunking\n- Use Web Workers for CPU-intensive tasks\n- Defer non-critical JavaScript with dynamic imports" }] }

/-- `addFIDFixes(audit)`. -/
def addFIDFixes (st : GenState) (audit : Audit) : GenState :=
  addFix st (fidFix audit)

/-- The fix record built by `addSpeedIndexFixes(audit)` (no diagnosis
field in the source). -/
def speedIndexFix (audit : Audit) : Fix :=
  { title := "Improve Speed Index"
    priority := "medium"
    impact := "Perceived performance"
    description := audit.description
    diagnosis := none
    fixes := [{ type := "html", title := "Add critical CSS inline",
                code := "<head>\n  <style>body \x7b margin: 0; font-family: system-ui; \x7d</style>\n  <link rel=\"preload\" href=\"styles.css\" as=\"style\" onload=\"this.onload=null;this.rel=\x27stylesheet\x27\">\n</head>" }] }

/-- `addSpeedIndexFixes(audit)`. -/
def addSpeedIndexFixes (st : GenState) (audit : Audit) : GenState :=
  addFix st (speedIndexFix audit)

/-- The fix record built by `addMetaDescriptionFixes(audit)`. -/
def metaDescriptionFix (audit : Audit) : Fix :=
  { title := "Add Meta Description"
    priority := "high"
    impact := "SEO"
    description := audit.description
    diagnosis := none
    fixes := [{ type := "html", title := "Add meta description in head",
                code := "<head>\n  <meta name=\"description\" content=\"A clear, compelling description between 50-160 characters.\">\n</head>" }] }

/-- `addMetaDescriptionFixes(audit)`. -/
def addMetaDescriptionFixes (st : GenState) (audit : Audit) : GenState :=
  addFix st (metaDescriptionFix audit)

/-- The fix record built by `addCanonicalFixes(audit)`. -/
def canonicalFix (audit : Audit) : Fix :=
  { title := "Add Canonical Link"
    priority := "medium"
    impact := "SEO"
    description := audit.description
    diagnosis := none
    fixes := [{ type := "html", title := "Add canonical link element",
                code := "<head>\n  <link rel=\"canonical\" href=\"https://example.com/page\">\n</head>" }] }

/-- `addCanonicalFixes(audit)`. -/
def addCanonicalFixes (st : GenState) (audit : Audit) : GenState :=
  addFix st (canonicalFix audit)

/-- The fix record built by `addBFCacheFixes(audit)`. -/
def bfCacheFix (audit : Audit) : Fix :=
  let items := jsItems audit
  { title := "Enable Back/Forward Cache"
    priority := "medium"
    impact := "Navigation performance"
    description := audit.description
    diagnosis := some (toString items.length ++ " issues preventing bfcache")
    fixes := [{ type := "text", title := "bfcache Solutions",
                code := "- Remove Cache-Control: no-store header\n- Avoid beforeunload/unload event listeners\n- Use pagehide event instead\n- Avoid fetch() with cache: no-store" }] }

/-- `addBFCacheFixes(audit)`. -/
def addBFCacheFixes (st : GenState) (audit : Audit) : GenState :=
  addFix st (bfCacheFix audit)

/-- The fix record built by `addNextJsOptimizationFixes(chunks)`. -/
def nextJsFix (chunks : List Item) : Fix :=
  let totalWastedBytes := sumWastedBytes chunks
  { title := "Optimize Next.js Bundle Size (~" ++ toString (jsRound (totalWastedBytes / 1024)) ++ "KB wasted)"
    priority := "high"
    impact := "FCP, LCP, and TBT"
    description := "Reduce unused JavaScript in Next.js chunks"
    diagnosis := none
    fixes := [{ type := "bash", title := "Analyze Bundle Size",
                code := "npm install @next/bundle-analyzer\nANALYZE=true npm run build" },
              { type := "javascript", title := "Optimize next.config.js",
                code := "module.exports = \x7b\n  swcMinify: true,\n  compiler: \x7b\n    removeConsole: process.env.NODE_ENV === \x27production\x27\n  \x7d\n\x7d;" }] }

/-- `addNextJsOptimizationFixes(chunks)`. -/
def addNextJsOptimizationFixes (st : GenState) (chunks : List Item) : GenState :=
  addFix st (nextJsFix chunks)

/-- The `switch (audit.id)` of `analyzePerformanceIssues`. -/
def perfDispatch (st : GenState) (audit : Audit) : GenState :=
  match audit.id with
  | "server-response-time" => addServerResponseTimeFixes st audit
  | "unused-javascript" => addUnusedJavaScriptFixes st audit
  | "speed-index" => addSpeedIndexFixes st audit
  | "lcp-breakdown-insight" => addLCPBreakdownFixes st audit
  | "document-latency-insight" => addDocumentLatencyFixes st audit
  | "max-potential-fid" => addFIDFixes st audit
  | _ => st

/-- The `switch (audit.id)` of `analyzeAccessibilityIssues`. -/
def a11yDispatch (st : GenState) (audit : Audit) : GenState :=
  match audit.id with
  | "color-contrast" => addColorContrastFixes st audit
  | "heading-order" => addHeadingOrderFixes st audit
  | _ => st

/-- The `switch (audit.id)` of `analyzeSeoIssues`. -/
def seoDispatch (st : GenState) (audit : Audit) : GenState :=
  match audit.id with
  | "meta-description" => addMetaDescriptionFixes st audit
  | "canonical" => addCanonicalFixes st audit
  | _ => st

/-- The `switch (audit.id)` of `analyzeBestPracticesIssues`. -/
def bpDispatch (st : GenState) (audit : Audit) : GenState :=
  match audit.id with
  | "errors-in-console" => addConsoleErrorsFixes st audit
  | "valid-source-maps" => addSourceMapsFixes st audit
  | "bf-cache" => addBFCacheFixes st audit
  | _ => st

/-- One loop iteration of an analysis pass:
`const audit = this.lhr.audits[ref.id]; if (!audit || audit.score >= 0.9) continue;`
then the category's switch. -/
def passStep (dispatch : GenState → Audit → GenState) (s : GenState) (ref : AuditRef) :
    GenState :=
  match jsLookup s.lhr.audits ref.id with
  | none => s
  | some audit => if nullGe audit.score (9/10) then s else dispatch s audit

/-- One full `for (const ref of ...)` loop of an analysis pass. -/
def passList (dispatch : GenState → Audit → GenState) (s : GenState)
    (refs : List AuditRef) : GenState :=
  refs.foldl (passStep dispatch) s

/-- `checkFrameworkSpecificIssues()`: inspects the `unused-javascript`
audit directly (not via category refs). -/
def checkFrameworkSpecificIssues (st : GenState) : GenState :=
  match jsLookup st.lhr.audits "unused-javascript" with
  | none => st
  | some unusedJs =>
    if nullLt unusedJs.score (9/10) then
      match unusedJs.details.bind (fun d => d.items) with
      | none => st
      | some items =>
        let nextJsChunks := items.filter (fun item => jsStrIncludes item.url "/_next/static/chunks/")
        if nextJsChunks.length > 0 then addNextJsOptimizationFixes st nextJsChunks else st
    else st

/-- `analyzePerformanceIssues()`. -/
def analyzePerformanceIssues (st : GenState) : GenState :=
  checkFrameworkSpecificIssues (passList perfDispatch st (categoryRefs st.lhr "performance"))

/-- `analyzeAccessibilityIssues()`. -/
def analyzeAccessibilityIssues (st : GenState) : GenState :=
  passList a11yDispatch st (categoryRefs st.lhr "accessibility")

/-- `analyzeSeoIssues()`. -/
def analyzeSeoIssues (st : GenState) : GenState :=
  passList seoDispatch st (categoryRefs st.lhr "seo")

/-- `analyzeBestPracticesIssues()`. -/
def analyzeBestPracticesIssues (st : GenState) : GenState :=
  passList bpDispatch st (categoryRefs st.lhr "best-practices")

/-- The four analysis passes of `generate()`, in source order. -/
def runPasses (st : GenState) : GenState :=
  analyzeBestPracticesIssues (analyzeSeoIssues (analyzeAccessibilityIssues (analyzePerformanceIssues st)))

/-- The fix list accumulated by `generate()` on a fresh generator for a
report (before `formatOutput`'s in-place priority sort). -/
def generateFixes (lhr : LHR) : List Fix :=
  (runPasses ⟨lhr, []⟩).fixes

/-- `priorityOrder = { high: 0, medium: 1, low: 2 }` (every fix the
engine emits carries one of the three priorities). -/
def priorityRank (p : String) : Nat :=
  if p == "high" then 0 else if p == "medium" then 1 else 2

/-- The comparator of `this.fixes.sort((a, b) => priorityOrder[a.priority] - priorityOrder[b.priority])`
as a stable-sort `le`. -/
def prioLe (a b : Fix) : Bool :=
  decide (priorityRank a.priority ≤ priorityRank b.priority)

/-- The per-priority emoji of `formatOutput`. -/
def prioEmoji (p : String) : String :=
  if p == "high" then "🔴" else if p == "medium" then "🟡" else "🟢"

/-- The snippet rendering of `formatOutput` (fenced code block tagged by
the snippet type). -/
def renderSnippet (s : Snippet) : String :=
  "#### " ++ s.title ++ "\n\n" ++ "\x60\x60\x60" ++ s.type ++ "\n" ++ s.code ++ "\n\x60\x60\x60\n\n"

/-- The per-fix rendering of `formatOutput`; the diagnosis line is
emitted only when `fix.diagnosis` is truthy (present and non-empty). -/
def renderFix (f : Fix) : String :=
  "### " ++ f.title ++ "\n\n" ++
  "**Impact**: " ++ f.impact ++ "\n\n" ++
  f.description ++ "\n\n" ++
  (if jsTruthyStr f.diagnosis then "**🔍 Diagnosis**: " ++ jsUndef f.diagnosis ++ "\n\n" else "") ++
  String.join (f.fixes.map renderSnippet) ++
  "---\n\n"

/-- One priority section of `formatOutput`: a bucket with zero members
contributes nothing (`if (items.length === 0) continue;`). -/
def renderBucket (priority : String) (items : List Fix) : String :=
  if items.length = 0 then ""
  else
    "## " ++ prioEmoji priority ++ " " ++ capFirst priority ++ " Priority\n\n" ++
    String.join (items.map renderFix)

/-- `formatOutput()`: returns the rendered markdown and the fix list
after the in-place stable priority sort. -/
def formatOutput (fixes : List Fix) : String × List Fix :=
  if fixes.length = 0 then
    ("# Lighthouse Fix Suggestions\n\n" ++ "No issues found! Great job!\n", fixes)
  else
    let sorted := stableSort prioLe fixes
    ("# Lighthouse Fix Suggestions\n\n" ++
       renderBucket "high" (sorted.filter (fun f => f.priority == "high")) ++
       renderBucket "medium" (sorted.filter (fun f => f.priority == "medium")) ++
       renderBucket "low" (sorted.filter (fun f => f.priority == "low")),
     sorted)

/-- `generate()`: run the four passes, then format; the returned state
reflects the in-place sort `formatOutput` applies to `this.fixes`. -/
def generate (st : GenState) : String × GenState :=
  let st1 := runPasses st
  let out := formatOutput st1.fixes
  (out.1, { st1 with fixes := out.2 })

end FixGenerator

/-! ## Engine lemmas: every step only appends fixes and never touches
the loaded report -/

/-- `t` is reachable from `s` by appending fixes: the report is
untouched and the fix list only grows at the tail. -/
def StExtends (s t : FixGenerator.GenState) : Prop :=
  t.lhr = s.lhr ∧ ∃ l, t.fixes = s.fixes ++ l

theorem stExtends_refl (s : FixGenerator.GenState) : StExtends s s :=
  ⟨rfl, [], by simp⟩

theorem stExtends_trans {s t u : FixGenerator.GenState}
    (h1 : StExtends s t) (h2 : StExtends t u) : StExtends s u := by
  obtain ⟨hl1, l1, hf1⟩ := h1
  obtain ⟨hl2, l2, hf2⟩ := h2
  exact ⟨hl2.trans hl1, l1 ++ l2, by rw [hf2, hf1, List.append_assoc]⟩

theorem addFix_extends (s : FixGenerator.GenState) (f : FixGenerator.Fix) :
    StExtends s (FixGenerator.addFix s f) :=
  ⟨rfl, [f], rfl⟩

theorem mem_fixes_of_extends {s t : FixGenerator.GenState} {f : FixGenerator.Fix}
    (h : StExtends s t) (hf : f ∈ s.fixes) : f ∈ t.fixes := by
  obtain ⟨_, l, hl⟩ := h
  rw [hl]
  exact List.mem_append_left l hf

theorem perfDispatch_extends (s : FixGenerator.GenState) (a : Audit) :
    StExtends s (FixGenerator.perfDispatch s a) := by
  unfold FixGenerator.perfDispatch
  split
  · exact addFix_extends s _
  · exact addFix_extends s _
  · exact addFix_extends s _
  · exact addFix_extends s _
  · exact addFix_extends s _
  · exact addFix_extends s _
  · exact stExtends_refl s

theorem a11yDispatch_extends (s : FixGenerator.GenState) (a : Audit) :
    StExtends s (FixGenerator.a11yDispatch s a) := by
  unfold FixGenerator.a11yDispatch
  split
  · exact addFix_extends s _
  · exact addFix_extends s _
  · exact stExtends_refl s

theorem seoDispatch_extends (s : FixGenerator.GenState) (a : Audit) :
    StExtends s (FixGenerator.seoDispatch s a) := by
  unfold FixGenerator.seoDispatch
  split
  · exact addFix_extends s _
  · exact addFix_extends s _
  · exact stExtends_refl s

theorem bpDispatch_extends (s : FixGenerator.GenState) (a : Audit) :
    StExtends s (FixGenerator.bpDispatch s a) := by
  unfold FixGenerator.bpDispatch
  split
  · exact addFix_extends s _
  · exact addFix_extends s _
  · exact addFix_extends s _
  · exact stExtends_refl s

theorem passStep_extends (d : FixGenerator.GenState → Audit → FixGenerator.GenState)
    (hd : ∀ s a, StExtends s (d s a)) (s : FixGenerator.GenState) (ref : AuditRef) :
    StExtends s (FixGenerator.passStep d s ref) := by
  unfold FixGenerator.passStep
  cases jsLookup s.lhr.audits ref.id with
  | none => exact stExtends_refl s
  | some audit =>
    by_cases h : nullGe audit.score (9/10) = true
    · simp only [h, if_true]
      exact stExtends_refl s
    · simp only [Bool.not_eq_true] at h
      simp only [h, Bool.false_eq_true, if_false]
      exact hd s audit

theorem passList_extends (d : FixGenerator.GenState → Audit → FixGenerator.GenState)
    (hd : ∀ s a, StExtends s (d s a)) :
    ∀ (refs : List AuditRef) (s : FixGenerator.GenState),
      StExtends s (FixGenerator.passList d s refs) := by
  intro refs
  induction refs with
  | nil => intro s; exact stExtends_refl s
  | cons r rs ih =>
    intro s
    exact stExtends_trans (passStep_extends d hd s r) (ih (FixGenerator.passStep d s r))

theorem checkFramework_extends (st : FixGenerator.GenState) :
    StExtends st (FixGenerator.checkFrameworkSpecificIssues st) := by
  unfold FixGenerator.checkFrameworkSpecificIssues
  cases jsLookup st.lhr.audits "unused-javascript" with
  | none => exact stExtends_refl st
  | some unusedJs =>
    by_cases h : nullLt unusedJs.score (9/10) = true
    · simp only [h, if_true]
      cases unusedJs.details.bind (fun d => d.items) with
      | none => exact stExtends_refl st
      | some items =>
        by_cases hc :
            (items.filter (fun item => jsStrIncludes item.url "/_next/static/chunks/")).length > 0
        · simp only [hc, if_true]
          exact addFix_extends st _
        · simp only [hc, if_false]
          exact stExtends_refl st
    · simp only [Bool.not_eq_true] at h
      simp only [h, Bool.false_eq_true, if_false]
      exact stExtends_refl st

theorem analyzePerformanceIssues_extends (st : FixGenerator.GenState) :
    StExtends st (FixGenerator.analyzePerformanceIssues st) :=
  stExtends_trans
    (passList_extends FixGenerator.perfDispatch perfDispatch_extends _ st)
    (checkFramework_extends _)

theorem analyzeAccessibilityIssues_extends (st : FixGenerator.GenState) :
    StExtends st (FixGenerator.analyzeAccessibilityIssues st) :=
  passList_extends FixGenerator.a11yDispatch a11yDispatch_extends _ st

theorem analyzeSeoIssues_extends (st : FixGenerator.GenState) :
    StExtends st (FixGenerator.analyzeSeoIssues st) :=
  passList_extends FixGenerator.seoDispatch seoDispatch_extends _ st

theorem analyzeBestPracticesIssues_extends (st : FixGenerator.GenState) :
    StExtends st (FixGenerator.analyzeBestPracticesIssues st) :=
  passList_extends FixGenerator.bpDispatch bpDispatch_extends _ st

theorem runPasses_extends (st : FixGenerator.GenState) :
    StExtends st (FixGenerator.runPasses st) :=
  stExtends_trans (analyzePerformanceIssues_extends st)
    (stExtends_trans (analyzeAccessibilityIssues_extends _)
      (stExtends_trans (analyzeSeoIssues_extends _)
        (analyzeBestPracticesIssues_extends _)))

/-- Claim C9: `generate` never mutates the loaded report — the state
after running the whole engine (all four analysis passes, `addFix`
accumulation and `formatOutput`'s in-place sort) carries the same `lhr`
value it started with; only the `fixes` list changes.  (The analyzer
queries `getSummary`, `getFailedAudits`, `getOpportunities`,
`getDiagnostics` and `getCoreWebVitals` are pure functions of the report
in this embedding, mirroring that the source only ever reads
`this.lhr`.) -/
theorem claim_C9_no_report_mutation (st : FixGenerator.GenState) :
    ((FixGenerator.generate st).2).lhr = st.lhr := by
  have h := (runPasses_extends st).1
  simp only [FixGenerator.generate]
  exact h

/-! ## Presenter lemmas -/

theorem prioLe_of_same_priority (pr : String) (x y : FixGenerator.Fix)
    (hx : (x.priority == pr) = true) (hy : (y.priority == pr) = true) :
    FixGenerator.prioLe x y = true := by
  rw [beq_iff_eq] at hx hy
  simp only [FixGenerator.prioLe, hx, hy, le_refl, decide_eq_true_eq]

theorem filter_priority_stableSort (pr : String) (fixes : List FixGenerator.Fix) :
    (stableSort FixGenerator.prioLe fixes).filter (fun f => f.priority == pr) =
      fixes.filter (fun f => f.priority == pr) :=
  filter_stableSort FixGenerator.prioLe _ (prioLe_of_same_priority pr) fixes

/-- Claim C5: `formatOutput` renders the priority sections in the fixed
order high, medium, low, with each bucket holding the fixes of that
priority in the engine's emission order (the stable priority sort cannot
reorder fixes of equal priority); an empty bucket contributes no section
at all; and for a list holding one low, one high and one medium fix, in
that insertion order, the output is the high section, then the medium
section, then the low section. -/
theorem claim_C5_priority_sections :
    (∀ fixes : List FixGenerator.Fix, fixes ≠ [] →
      (FixGenerator.formatOutput fixes).1 =
        "# Lighthouse Fix Suggestions\n\n" ++
        FixGenerator.renderBucket "high" (fixes.filter (fun f => f.priority == "high")) ++
        FixGenerator.renderBucket "medium" (fixes.filter (fun f => f.priority == "medium")) ++
        FixGenerator.renderBucket "low" (fixes.filter (fun f => f.priority == "low"))) ∧
    (∀ pr : String, FixGenerator.renderBucket pr [] = "") ∧
    (∀ f1 f2 f3 : FixGenerator.Fix,
      f1.priority = "low" → f2.priority = "high" → f3.priority = "medium" →
      (FixGenerator.formatOutput [f1, f2, f3]).1 =
        "# Lighthouse Fix Suggestions\n\n" ++
        FixGenerator.renderBucket "high" [f2] ++
        FixGenerator.renderBucket "medium" [f3] ++
        FixGenerator.renderBucket "low" [f1]) := by
  have hmain : ∀ fixes : List FixGenerator.Fix, fixes ≠ [] →
      (FixGenerator.formatOutput fixes).1 =
        "# Lighthouse Fix Suggestions\n\n" ++
        FixGenerator.renderBucket "high" (fixes.filter (fun f => f.priority == "high")) ++
        FixGenerator.renderBucket "medium" (fixes.filter (fun f => f.priority == "medium")) ++
        FixGenerator.renderBucket "low" (fixes.filter (fun f => f.priority == "low")) := by
    intro fixes hne
    have hlen : ¬(fixes.length = 0) := by
      simpa [List.length_eq_zero] using hne
    rw [FixGenerator.formatOutput, if_neg hlen]
    simp only [filter_priority_stableSort]
  refine ⟨hmain, fun pr => rfl, ?_⟩
  intro f1 f2 f3 h1 h2 h3
  rw [hmain [f1, f2, f3] (by simp)]
  simp [List.filter, h1, h2, h3]

/-- A low-priority fix for the C5 witness. -/
def w5low : FixGenerator.Fix :=
  { title := "L", priority := "low", impact := "", description := "",
    diagnosis := none, fixes := [] }

/-- A high-priority fix for the C5 witness. -/
def w5high : FixGenerator.Fix :=
  { title := "H", priority := "high", impact := "", description := "",
    diagnosis := none, fixes := [] }

/-- A medium-priority fix for the C5 witness. -/
def w5med : FixGenerator.Fix :=
  { title := "M", priority := "medium", impact := "", description := "",
    diagnosis := none, fixes := [] }

theorem claim_C5_witness :
    (FixGenerator.formatOutput [w5low, w5high, w5med]).1 =
      "# Lighthouse Fix Suggestions\n\n" ++
      FixGenerator.renderBucket "high" [w5high] ++
      FixGenerator.renderBucket "medium" [w5med] ++
      FixGenerator.renderBucket "low" [w5low] :=
  claim_C5_priority_sections.2.2 w5low w5high w5med rfl rfl rfl

/-! ## Server-response-time rule lemmas -/

theorem passList_srt_mem :
    ∀ (refs : List AuditRef) (s : FixGenerator.GenState) (a : Audit),
      (∃ ref ∈ refs, jsLookup s.lhr.audits ref.id = some a) →
      a.id = "server-response-time" →
      nullGe a.score (9/10) = false →
      ∃ f ∈ (FixGenerator.passList FixGenerator.perfDispatch s refs).fixes,
        f.diagnosis = some (FixGenerator.diagnoseTTFB (jsNum a.numericValue 0)) := by
  intro refs
  induction refs with
  | nil =>
    intro s a h _ _
    obtain ⟨ref, href, _⟩ := h
    cases href
  | cons r rs ih =>
    intro s a h hid hscore
    obtain ⟨ref, href, hlook⟩ := h
    rcases List.mem_cons.mp href with rfl | hmem
    · have hstep : FixGenerator.passStep FixGenerator.perfDispatch s ref =
          FixGenerator.addFix s (FixGenerator.srtFix a) := by
        unfold FixGenerator.passStep
        rw [hlook]
        simp only [hscore, Bool.false_eq_true, if_false]
        unfold FixGenerator.perfDispatch
        rw [hid]
        rfl
      have hrw : FixGenerator.passList FixGenerator.perfDispatch s (ref :: rs) =
          FixGenerator.passList FixGenerator.perfDispatch
            (FixGenerator.addFix s (FixGenerator.srtFix a)) rs := by
        rw [FixGenerator.passList, List.foldl_cons, hstep]
        rfl
      rw [hrw]
      have hext := passList_extends FixGenerator.perfDispatch perfDispatch_extends rs
        (FixGenerator.addFix s (FixGenerator.srtFix a))
      refine ⟨FixGenerator.srtFix a, mem_fixes_of_extends hext ?_, rfl⟩
      simp [FixGenerator.addFix]
    · have hlhr : (FixGenerator.passStep FixGenerator.perfDispatch s r).lhr = s.lhr :=
        (passStep_extends FixGenerator.perfDispatch perfDispatch_extends s r).1
      have hrw : FixGenerator.passList FixGenerator.perfDispatch s (r :: rs) =
          FixGenerator.passList FixGenerator.perfDispatch
            (FixGenerator.passStep FixGenerator.perfDispatch s r) rs := by
        rw [FixGenerator.passList, List.foldl_cons]
        rfl
      rw [hrw]
      refine ih (FixGenerator.passStep FixGenerator.perfDispatch s r) a
        ⟨ref, hmem, ?_⟩ hid hscore
      rw [hlhr]
      exact hlook

/-- Claim C6: the TTFB diagnosis of the `server-response-time` rule is
selected by numeric tiers — above 1000 ms "critically high", above
600 ms (up to 1000) "elevated", above 400 ms (up to 600) "moderate",
otherwise "acceptable"; in particular 1200 ms yields the critical text
and 350 ms the acceptable text; and whenever the performance category
references a resolved `server-response-time` audit whose score fails the
`>= 0.9` gate, the engine emits a fix whose diagnosis is exactly
`diagnoseTTFB` of the audit's `numericValue` defaulted to 0. -/
theorem claim_C6_ttfb_tiers :
    (∀ t : ℚ, 1000 < t →
      FixGenerator.diagnoseTTFB t = "TTFB is critically high (> 1s)") ∧
    (∀ t : ℚ, 600 < t → t ≤ 1000 →
      FixGenerator.diagnoseTTFB t = "TTFB is elevated (> 600ms)") ∧
    (∀ t : ℚ, 400 < t → t ≤ 600 →
      FixGenerator.diagnoseTTFB t = "TTFB is moderate (> 400ms)") ∧
    (∀ t : ℚ, t ≤ 400 → FixGenerator.diagnoseTTFB t = "TTFB is acceptable") ∧
    FixGenerator.diagnoseTTFB 1200 = "TTFB is critically high (> 1s)" ∧
    FixGenerator.diagnoseTTFB 350 = "TTFB is acceptable" ∧
    (∀ (lhr : LHR) (ref : AuditRef) (a : Audit),
      ref ∈ FixGenerator.categoryRefs lhr "performance" →
      jsLookup lhr.audits ref.id = some a →
      a.id = "server-response-time" →
      nullGe a.score (9/10) = false →
      ∃ f ∈ FixGenerator.generateFixes lhr,
        f.diagnosis = some (FixGenerator.diagnoseTTFB (jsNum a.numericValue 0))) := by
  have h1 : ∀ t : ℚ, 1000 < t →
      FixGenerator.diagnoseTTFB t = "TTFB is critically high (> 1s)" := by
    intro t h
    unfold FixGenerator.diagnoseTTFB
    rw [if_pos h]
  have h2 : ∀ t : ℚ, 600 < t → t ≤ 1000 →
      FixGenerator.diagnoseTTFB t = "TTFB is elevated (> 600ms)" := by
    intro t h6 h10
    unfold FixGenerator.diagnoseTTFB
    rw [if_neg (not_lt.mpr h10), if_pos h6]
  have h3 : ∀ t : ℚ, 400 < t → t ≤ 600 →
      FixGenerator.diagnoseTTFB t = "TTFB is moderate (> 400ms)" := by
    intro t h4 h6
    unfold FixGenerator.diagnoseTTFB
    rw [if_neg (not_lt.mpr (h6.trans (by norm_num))),
      if_neg (not_lt.mpr h6), if_pos h4]
  have h4 : ∀ t : ℚ, t ≤ 400 → FixGenerator.diagnoseTTFB t = "TTFB is acceptable" := by
    intro t h
    unfold FixGenerator.diagnoseTTFB
    rw [if_neg (not_lt.mpr (h.trans (by norm_num))),
      if_neg (not_lt.mpr (h.trans (by norm_num))),
      if_neg (not_lt.mpr h)]
  refine ⟨h1, h2, h3, h4, h1 1200 (by norm_num), h4 350 (by norm_num), ?_⟩
  intro lhr ref a href hlook hid hscore
  obtain ⟨f, hf, hdiag⟩ := passList_srt_mem (FixGenerator.categoryRefs lhr "performance")
    ⟨lhr, []⟩ a ⟨ref, href, hlook⟩ hid hscore
  have hext : StExtends
      (FixGenerator.passList FixGenerator.perfDispatch ⟨lhr, []⟩
        (FixGenerator.categoryRefs lhr "performance"))
      (FixGenerator.runPasses ⟨lhr, []⟩) :=
    stExtends_trans (checkFramework_extends _)
      (stExtends_trans (analyzeAccessibilityIssues_extends _)
        (stExtends_trans (analyzeSeoIssues_extends _)
          (analyzeBestPracticesIssues_extends _)))
  exact ⟨f, mem_fixes_of_extends hext hf, hdiag⟩

/-- The failing null-score `server-response-time` audit of the C2
failing input. -/
def c2audit : Audit :=
  { Audit.empty with
    id := "server-response-time"
    title := "Initial server response time was short"
    description := "Keep the server response time for the main document short"
    score := none
    scoreDisplayMode := some "informative"
    numericValue := some 1500 }

/-- The C2 failing input: the performance category references a
`server-response-time` audit whose score is `null`. -/
def c2report : LHR :=
  { LHR.empty with
    categories :=
      [("performance",
        { title := "Performance", score := some 1,
          auditRefs := [⟨"server-response-time"⟩] })]
    audits := [("server-response-time", c2audit)] }

/-- Claim C2 (code bug): the dispatch gate `audit.score >= 0.9` coerces
a `null` score to 0, so a null-score audit is dispatched and a fix is
emitted — the engine does not restrict dispatch to non-null scores. -/
theorem claim_C2_null_score_dispatched :
    c2audit.score = none ∧
      jsLookup c2report.audits "server-response-time" = some c2audit ∧
      (FixGenerator.generateFixes c2report).length = 1 := by
  refine ⟨rfl, rfl, ?_⟩
  with_unfolding_all rfl

/-- The C6 witness audit: failing score, 1200 ms response time. -/
def w6audit : Audit :=
  { Audit.empty with
    id := "server-response-time"
    score := some 0
    numericValue := some 1200 }

/-- The C6 witness report. -/
def w6lhr : LHR :=
  { LHR.empty with
    categories :=
      [("performance",
        { title := "Performance", score := some 0,
          auditRefs := [⟨"server-response-time"⟩] })]
    audits := [("server-response-time", w6audit)] }

theorem claim_C6_witness :
    ∃ f ∈ FixGenerator.generateFixes w6lhr,
      f.diagnosis = some (FixGenerator.diagnoseTTFB (jsNum w6audit.numericValue 0)) :=
  claim_C6_ttfb_tiers.2.2.2.2.2.2 w6lhr ⟨"server-response-time"⟩ w6audit
    (by decide) rfl rfl (by with_unfolding_all rfl)

/-! ## Skip lemmas for the no-issues path -/

theorem passStep_skip (d : FixGenerator.GenState → Audit → FixGenerator.GenState)
    (s : FixGenerator.GenState) (ref : AuditRef)
    (h : ∀ a, jsLookup s.lhr.audits ref.id = some a → nullGe a.score (9/10) = true) :
    FixGenerator.passStep d s ref = s := by
  unfold FixGenerator.passStep
  cases hl : jsLookup s.lhr.audits ref.id with
  | none => rfl
  | some audit => simp [h audit hl]

theorem passList_skip (d : FixGenerator.GenState → Audit → FixGenerator.GenState) :
    ∀ (refs : List AuditRef) (s : FixGenerator.GenState),
      (∀ ref ∈ refs, ∀ a, jsLookup s.lhr.audits ref.id = some a →
        nullGe a.score (9/10) = true) →
      FixGenerator.passList d s refs = s := by
  intro refs
  induction refs with
  | nil => intro s _; rfl
  | cons r rs ih =>
    intro s h
    have hstep : FixGenerator.passStep d s r = s :=
      passStep_skip d s r (h r (List.mem_cons_self r rs))
    have : FixGenerator.passList d s (r :: rs) = FixGenerator.passList d s rs := by
      rw [FixGenerator.passList, List.foldl_cons, hstep]
      rfl
    rw [this]
    exact ih s (fun ref hm => h ref (List.mem_cons_of_mem r hm))

theorem checkFramework_skip (st : FixGenerator.GenState)
    (huj : ∀ a, jsLookup st.lhr.audits "unused-javascript" = some a →
      nullLt a.score (9/10) = false ∨
        ((a.details.bind (fun d => d.items)).getD []).filter
          (fun item => jsStrIncludes item.url "/_next/static/chunks/") = []) :
    FixGenerator.checkFrameworkSpecificIssues st = st := by
  unfold FixGenerator.checkFrameworkSpecificIssues
  cases hl : jsLookup st.lhr.audits "unused-javascript" with
  | none => rfl
  | some uj =>
    rcases huj uj hl with hscore | hfil
    · simp [hscore]
    · by_cases hscore : nullLt uj.score (9/10) = true
      · simp only [hscore, if_true]
        cases hit : uj.details.bind (fun d => d.items) with
        | none => rfl
        | some items =>
          rw [hit] at hfil
          simp only [Option.getD_some] at hfil
          simp [hfil]
      · simp only [Bool.not_eq_true] at hscore
        simp [hscore]

/-- The failing, unreferenced `unused-javascript` audit of the C7
counterexample. -/
def c7unusedJs : Audit :=
  { Audit.empty with
    id := "unused-javascript"
    score := some 0
    details := some { type := none,
                      items := some [{ Item.empty with
                                       url := some "https://a/_next/static/chunks/x.js"
                                       wastedBytes := some 2048 }],
                      overallSavingsMs := none,
                      overallSavingsBytes := none } }

/-- The C7 counterexample report: no category references any audit at
all, yet the framework-detection step still emits a fix. -/
def c7report : LHR :=
  { LHR.empty with audits := [("unused-javascript", c7unusedJs)] }

/-- Claim C7 counterexample: a report in which no audit is referenced by
any of the four processed categories (there are no categories, so the
claim's hypothesis holds vacuously) for which the engine nevertheless
produces a non-empty fix list — `checkFrameworkSpecificIssues` reads the
`unused-javascript` audit directly, not via `auditRefs`. -/
theorem claim_C7_counterexample :
    (∀ cid : String, FixGenerator.categoryRefs c7report cid = []) ∧
      (FixGenerator.generateFixes c7report).length = 1 := by
  refine ⟨fun cid => rfl, ?_⟩
  with_unfolding_all rfl

/-- Claim C7 (amended): if every audit referenced by the four processed
categories resolves (if at all) to an audit passing the `score >= 0.9`
gate, and additionally the `unused-javascript` audit, when present,
either passes that gate or has no `details.items` entry whose URL
contains the Next.js chunk marker, then the engine produces an empty fix
list and renders exactly the title line followed by
"No issues found! Great job!". -/
theorem claim_C7_amended (lhr : LHR)
    (hperf : ∀ ref ∈ FixGenerator.categoryRefs lhr "performance", ∀ a,
      jsLookup lhr.audits ref.id = some a → nullGe a.score (9/10) = true)
    (ha11y : ∀ ref ∈ FixGenerator.categoryRefs lhr "accessibility", ∀ a,
      jsLookup lhr.audits ref.id = some a → nullGe a.score (9/10) = true)
    (hseo : ∀ ref ∈ FixGenerator.categoryRefs lhr "seo", ∀ a,
      jsLookup lhr.audits ref.id = some a → nullGe a.score (9/10) = true)
    (hbp : ∀ ref ∈ FixGenerator.categoryRefs lhr "best-practices", ∀ a,
      jsLookup lhr.audits ref.id = some a → nullGe a.score (9/10) = true)
    (huj : ∀ a, jsLookup lhr.audits "unused-javascript" = some a →
      nullLt a.score (9/10) = false ∨
        ((a.details.bind (fun d => d.items)).getD []).filter
          (fun item => jsStrIncludes item.url "/_next/static/chunks/") = []) :
    FixGenerator.generateFixes lhr = [] ∧
      (FixGenerator.generate ⟨lhr, []⟩).1 =
        "# Lighthouse Fix Suggestions\n\nNo issues found! Great job!\n" := by
  have e1 : FixGenerator.analyzePerformanceIssues ⟨lhr, []⟩ = ⟨lhr, []⟩ := by
    unfold FixGenerator.analyzePerformanceIssues
    rw [passList_skip FixGenerator.perfDispatch _ ⟨lhr, []⟩ hperf]
    exact checkFramework_skip ⟨lhr, []⟩ huj
  have e2 : FixGenerator.analyzeAccessibilityIssues ⟨lhr, []⟩ = ⟨lhr, []⟩ :=
    passList_skip FixGenerator.a11yDispatch _ ⟨lhr, []⟩ ha11y
  have e3 : FixGenerator.analyzeSeoIssues ⟨lhr, []⟩ = ⟨lhr, []⟩ :=
    passList_skip FixGenerator.seoDispatch _ ⟨lhr, []⟩ hseo
  have e4 : FixGenerator.analyzeBestPracticesIssues ⟨lhr, []⟩ = ⟨lhr, []⟩ :=
    passList_skip FixGenerator.bpDispatch _ ⟨lhr, []⟩ hbp
  have hrun : FixGenerator.runPasses ⟨lhr, []⟩ = ⟨lhr, []⟩ := by
    unfold FixGenerator.runPasses
    rw [e1, e2, e3, e4]
  constructor
  · rw [FixGenerator.generateFixes, hrun]
  · rw [FixGenerator.generate, hrun]
    rfl

theorem claim_C7_amended_witness :
    FixGenerator.generateFixes LHR.empty = [] ∧
      (FixGenerator.generate ⟨LHR.empty, []⟩).1 =
        "# Lighthouse Fix Suggestions\n\nNo issues found! Great job!\n" :=
  claim_C7_amended LHR.empty
    (fun ref h => absurd h (List.not_mem_nil ref))
    (fun ref h => absurd h (List.not_mem_nil ref))
    (fun ref h => absurd h (List.not_mem_nil ref))
    (fun ref h => absurd h (List.not_mem_nil ref))
    (fun _a h => Option.noConfusion h)

/-! ## Unused-JavaScript rule lemmas -/

/-- Claim C8: the unused-JavaScript rule partitions `details.items` by
the browser-extension URL marker: a non-empty first-party partition
yields the "Unused JavaScript Analysis" block (fed the byte total summed
over ALL items and the audit's own `overallSavingsMs`), a non-empty
extension partition yields the separate "Can Ignore" block naming
exactly the extension URLs; the title's wasted-byte figure is the
all-items sum and its savings figure is `overallSavingsMs` read directly
from the audit; the diagnosis counts only first-party items. -/
theorem claim_C8_unused_js_partition (audit : Audit) :
    (((FixGenerator.jsItems audit).filter (fun i => !(FixGenerator.isExt i))) ≠ [] →
      ({ type := "markdown", title := "Unused JavaScript Analysis",
         code := FixGenerator.getUnusedJsAnalysis
           ((FixGenerator.jsItems audit).filter (fun i => !(FixGenerator.isExt i)))
           (FixGenerator.sumWastedBytes (FixGenerator.jsItems audit))
           (jsNum (audit.details.bind (fun d => d.overallSavingsMs)) 0) } : FixGenerator.Snippet) ∈
        (FixGenerator.unusedJsFix audit).fixes) ∧
    (((FixGenerator.jsItems audit).filter FixGenerator.isExt) ≠ [] →
      ({ type := "text", title := "Browser Extensions Detected (Can Ignore)",
         code := "Browser extensions like " ++
           String.intercalate ", "
             (((FixGenerator.jsItems audit).filter FixGenerator.isExt).map FixGenerator.extName) ++
           " only affect local development. Test in incognito mode for accurate production metrics." } : FixGenerator.Snippet) ∈
        (FixGenerator.unusedJsFix audit).fixes) ∧
    (FixGenerator.unusedJsFix audit).title =
      "Reduce Unused JavaScript (~" ++
        toString (jsRound (FixGenerator.sumWastedBytes (FixGenerator.jsItems audit) / 1024)) ++
        "KB wasted, " ++
        numStr (jsNum (audit.details.bind (fun d => d.overallSavingsMs)) 0) ++ "ms savings)" ∧
    (FixGenerator.unusedJsFix audit).diagnosis =
      some (toString ((FixGenerator.jsItems audit).filter (fun i => !(FixGenerator.isExt i))).length ++
        " first-party files with unused code") := by
  refine ⟨?_, ?_, rfl, rfl⟩
  · intro hfp
    have hlen : 0 < ((FixGenerator.jsItems audit).filter (fun i => !(FixGenerator.isExt i))).length :=
      List.length_pos.mpr hfp
    show _ ∈ (FixGenerator.unusedJsFix audit).fixes
    unfold FixGenerator.unusedJsFix
    dsimp only
    rw [if_pos hlen]
    apply List.mem_append_left
    exact List.mem_cons_self _ _
  · intro hext
    have hlen : 0 < ((FixGenerator.jsItems audit).filter FixGenerator.isExt).length :=
      List.length_pos.mpr hext
    show _ ∈ (FixGenerator.unusedJsFix audit).fixes
    unfold FixGenerator.unusedJsFix
    dsimp only
    rw [if_pos hlen]
    apply List.mem_append_right
    exact List.mem_singleton.mpr rfl

/-- A first-party unused-JS item for the C8 witness. -/
def w8first : Item :=
  { Item.empty with url := some "https://site.example/app/main.js", wastedBytes := some 1024 }

/-- A browser-extension unused-JS item for the C8 witness. -/
def w8ext : Item :=
  { Item.empty with url := some "chrome-extension://abcdef/content.js", wastedBytes := some 512 }

/-- The C8 witness audit, holding one first-party and one extension
item. -/
def w8audit : Audit :=
  { Audit.empty with
    id := "unused-javascript"
    score := some 0
    details := some { type := some "opportunity",
                      items := some [w8first, w8ext],
                      overallSavingsMs := some 300,
                      overallSavingsBytes := some 1536 } }

theorem claim_C8_witness :
    ({ type := "markdown", title := "Unused JavaScript Analysis",
       code := FixGenerator.getUnusedJsAnalysis
         ((FixGenerator.jsItems w8audit).filter (fun i => !(FixGenerator.isExt i)))
         (FixGenerator.sumWastedBytes (FixGenerator.jsItems w8audit))
         (jsNum (w8audit.details.bind (fun d => d.overallSavingsMs)) 0) } : FixGenerator.Snippet) ∈
      (FixGenerator.unusedJsFix w8audit).fixes ∧
    ({ type := "text", title := "Browser Extensions Detected (Can Ignore)",
       code := "Browser extensions like " ++
         String.intercalate ", "
           (((FixGenerator.jsItems w8audit).filter FixGenerator.isExt).map FixGenerator.extName) ++
         " only affect local development. Test in incognito mode for accurate production metrics." } : FixGenerator.Snippet) ∈
      (FixGenerator.unusedJsFix w8audit).fixes :=
  ⟨(claim_C8_unused_js_partition w8audit).1 (by decide),
   (claim_C8_unused_js_partition w8audit).2.1 (by decide)⟩

/-! ## Diagnostics lemmas -/

theorem map_filterMap_sublist {α β : Type} (f : α → Option β) (g : β → α) :
    ∀ l : List α, (∀ x ∈ l, ∀ y, f x = some y → g y = x) →
      List.Sublist ((l.filterMap f).map g) l := by
  intro l
  induction l with
  | nil => intro _; simp
  | cons x xs ih =>
    intro h
    cases hfx : f x with
    | none =>
      simp only [List.filterMap_cons, hfx]
      exact (ih (fun z hz => h z (List.mem_cons_of_mem x hz))).cons x
    | some y =>
      simp only [List.filterMap_cons, hfx, List.map_cons]
      rw [h x (List.mem_cons_self x xs) y hfx]
      exact (ih (fun z hz => h z (List.mem_cons_of_mem x hz))).cons₂ x

/-- Claim C10: `getDiagnostics` retains a present allow-listed audit
even when its score is `null` (the `audit.score < 1` test coerces `null`
to 0, so null-score diagnostic audits appear in the result), and — for a
report whose audit entries carry their own key as `id` — the result ids
form a sublist of the fixed allow-list order `bootup-time,
mainthread-work-breakdown, long-tasks, dom-size, network-requests,
total-byte-weight`. -/
theorem claim_C10_null_score_diagnostics (lhr : LHR) :
    (∀ id a, id ∈ LighthouseAnalyzer.diagnosticIds →
      jsLookup lhr.audits id = some a → a.score = none →
      LighthouseAnalyzer.diagProj a ∈ LighthouseAnalyzer.getDiagnostics lhr) ∧
    ((∀ id a, id ∈ LighthouseAnalyzer.diagnosticIds →
        jsLookup lhr.audits id = some a → a.id = id) →
      List.Sublist ((LighthouseAnalyzer.getDiagnostics lhr).map (fun d => d.id))
        LighthouseAnalyzer.diagnosticIds) := by
  constructor
  · intro id a hid hlook hnull
    rw [LighthouseAnalyzer.getDiagnostics]
    apply List.mem_filterMap.mpr
    refine ⟨id, hid, ?_⟩
    have hlt : nullLt a.score 1 = true := by
      rw [hnull]
      norm_num [nullLt]
    rw [LighthouseAnalyzer.diagStep, hlook]
    simp [hlt]
  · intro hcoh
    apply map_filterMap_sublist
    intro x hx y hstep
    rw [LighthouseAnalyzer.diagStep, Option.bind_eq_some] at hstep
    obtain ⟨a, hl, hif⟩ := hstep
    by_cases hlt : nullLt a.score 1 = true
    · rw [if_pos hlt] at hif
      simp only [Option.some.injEq] at hif
      subst hif
      exact hcoh x a hx hl
    · rw [if_neg hlt] at hif
      cases hif

/-- The null-score diagnostic audit of the C10 witness. -/
def w10dom : Audit :=
  { Audit.empty with
    id := "dom-size"
    title := "Avoids an excessive DOM size"
    score := none
    scoreDisplayMode := some "informative"
    displayValue := some "123 elements" }

/-- A passing diagnostic audit of the C10 witness. -/
def w10boot : Audit :=
  { Audit.empty with
    id := "bootup-time"
    score := some 1 }

/-- The C10 witness report. -/
def w10lhr : LHR :=
  { LHR.empty with audits := [("dom-size", w10dom), ("bootup-time", w10boot)] }

theorem claim_C10_witness :
    LighthouseAnalyzer.diagProj w10dom ∈ LighthouseAnalyzer.getDiagnostics w10lhr ∧
      List.Sublist ((LighthouseAnalyzer.getDiagnostics w10lhr).map (fun d => d.id))
        LighthouseAnalyzer.diagnosticIds :=
  ⟨(claim_C10_null_score_diagnostics w10lhr).1 "dom-size" w10dom (by decide) (by rfl) rfl,
   (claim_C10_null_score_diagnostics w10lhr).2 (by
     intro id a hid hlook
     fin_cases hid <;>
       simp_all [jsLookup, List.find?, w10lhr, w10dom, w10boot, LHR.empty, Audit.empty] <;>
       exact hlook ▸ rfl)⟩
